import Mathlib

/-!
Verification of the `git-commit-ai` commit-message generator.

This file gives a shallow embedding, in Lean, of the pure computational core
of the repository (the heuristic message generator, the response parser, the
staged-diff truncation, the prompt construction and the result cache of
`src/git_commit_ai/llm.py` and `src/git_commit_ai/git_utils.py`), and proves
the behavioural properties stated in the specification against it.

Python strings are modelled as Lean `String` (lists of unicode code points,
matching Python's code-point semantics of `len`, slicing and iteration).
Python's `None`-or-value results are modelled with `Option`; the possible
nontermination of the generic-padding `while` loop in
`analyze_and_generate_messages` is made explicit with a fuel parameter
(`none` = the loop has not terminated within the given fuel, for every fuel).
Console output and the network are side effects irrelevant to the values
computed; the two remote endpoints are passed in as an environment of
(prompt -> optional response) functions, mirroring `call_llm7_api` /
`call_apifreellm` being awaited for an optional text.
-/

namespace GitCommitAI

/-! ## Python primitives on strings, modelled on `List Char` -/

/-- Python's substring test `needle in hay` on strings. -/
def pyIn (needle : List Char) : List Char → Bool
  | [] => needle.isEmpty
  | c :: t => needle.isPrefixOf (c :: t) || pyIn needle t

/-- Python's `str.lower()` (ASCII case mapping suffices for the keywords used). -/
def pyLower (s : String) : String := String.mk (s.data.map Char.toLower)

/-- Whitespace recognised by Python's `str.strip()` and `\s` (ASCII range). -/
def isPyWs (c : Char) : Bool :=
  c = ' ' || c = '\t' || c = '\n' || c = '\r' || c = '\u000B' || c = '\u000C'

/-- Python's `str.strip()`: drop leading and trailing whitespace. -/
def pyStrip (cs : List Char) : List Char :=
  ((cs.dropWhile isPyWs).reverse.dropWhile isPyWs).reverse

/-- Python's `str.count(needle)`: number of non-overlapping occurrences. -/
def pyCount (needle : List Char) (hay : List Char) : Nat :=
  if h : needle = [] then hay.length + 1
  else
    match hay with
    | [] => 0
    | c :: rest =>
      if needle.isPrefixOf (c :: rest) then
        1 + pyCount needle ((c :: rest).drop needle.length)
      else
        pyCount needle rest
termination_by hay.length
decreasing_by
  · simp only [List.length_drop]
    have : 0 < needle.length := List.length_pos.mpr h
    simp only [List.length_cons]
    omega
  · simp

/-- Python's `s.split("\n")`: split on every newline, keeping empty pieces. -/
def splitNl : List Char → List (List Char)
  | [] => [[]]
  | c :: t =>
    if c = '\n' then [] :: splitNl t
    else
      match splitNl t with
      | h :: r => (c :: h) :: r
      | [] => [[c]]

/-- Python's `"\n".join`: inverse of `splitNl`. -/
def joinNl : List (List Char) → List Char
  | [] => []
  | [l] => l
  | l :: r => l ++ '\n' :: joinNl r

/-- Index of the last element satisfying `p`, i.e. the index found by a
Python `for i in range(len(l) - 1, -1, -1)` loop that stops at the first hit. -/
def findLast? (p : α → Bool) : List α → Option Nat
  | [] => none
  | x :: xs =>
    match findLast? p xs with
    | some j => some (j + 1)
    | none => if p x then some 0 else none

/-- Python's `list(dict.fromkeys(l))`: deduplicate keeping first occurrences. -/
def pyDedupAux (seen : List String) : List String → List String
  | [] => []
  | x :: xs => if x ∈ seen then pyDedupAux seen xs else x :: pyDedupAux (x :: seen) xs

def pyDedup (l : List String) : List String := pyDedupAux [] l

/-- Python's `s.split("/")` (used by pathlib's parser to cut a POSIX path into
components). -/
def pySlashSplit : List Char → List (List Char)
  | [] => [[]]
  | c :: t =>
    if c = '/' then [] :: pySlashSplit t
    else
      match pySlashSplit t with
      | h :: r => (c :: h) :: r
      | [] => [[c]]

/-- Python's `s.endswith(suffix)`. -/
def pyEndsWith (s : String) (suffix : String) : Bool :=
  suffix.data.isSuffixOf s.data

/-- Final component of a path, as `pathlib.PurePath(path).name`
("." components and empty components are dropped by pathlib's parser). -/
def pyName (path : String) : String :=
  (((pySlashSplit path.data).map String.mk).filter
    (fun s => s ≠ "" && s ≠ ".")).getLastD ""

/-- Python's `pathlib.PurePath(path).stem`: the final component without its
last suffix; a leading dot or a lone trailing dot does not count as a suffix. -/
def pyStem (path : String) : String :=
  let nm := pyName path
  let cs := nm.data
  match findLast? (fun c => c = '.') cs with
  | some i => if 0 < i ∧ i + 1 < cs.length then String.mk (cs.take i) else nm
  | none => nm

/-! ## Data model (`models.py`) -/

/-- Element of the staged-change list (`models.FileChange`). -/
structure FileChange where
  path : String
  status : String
  additions : Nat := 0
  deletions : Nat := 0
deriving DecidableEq, Repr

/-- Generated suggestion (`models.CommitMessage`); the style tag is kept as the
style string validated against the closed `CommitStyle` enumeration. -/
structure CommitMessage where
  subject : String
  body : Option String := none
  style : String := "conventional"
deriving DecidableEq, Repr

/-- Membership in the closed `CommitStyle` enumeration; `CommitStyle(style)`
raises `ValueError` exactly when this is false. -/
def isValidStyle (style : String) : Bool :=
  style = "conventional" || style = "gitmoji" || style = "simple"

/-! ## Local heuristic generator (`llm.py`, `analyze_and_generate_messages`) -/

/-- Flag `is_bugfix` of `analyze_and_generate_messages`. -/
def is_bugfix (diff : String) : Bool :=
  pyIn "fix".data (pyLower diff).data || pyIn "bug".data (pyLower diff).data ||
    pyIn "error".data (pyLower diff).data

/-- Flag `is_feature` (the first three needles search the raw diff). -/
def is_feature (diff : String) : Bool :=
  pyIn "def ".data diff.data || pyIn "class ".data diff.data ||
    pyIn "function ".data diff.data || pyIn "feat".data (pyLower diff).data

/-- Flag `is_refactor`. -/
def is_refactor (diff : String) : Bool :=
  pyIn "refactor".data (pyLower diff).data || pyIn "rename".data (pyLower diff).data

/-- Flag `is_security`. -/
def is_security (diff : String) : Bool :=
  pyIn "security".data (pyLower diff).data || pyIn "auth".data (pyLower diff).data ||
    pyIn "token".data (pyLower diff).data

/-- Flag `is_performance`. -/
def is_performance (diff : String) : Bool :=
  pyIn "performance".data (pyLower diff).data || pyIn "optimize".data (pyLower diff).data ||
    pyIn "cache".data (pyLower diff).data

/-- Flag `has_tests`: some changed file whose lowered path contains "test". -/
def has_tests (changed_files : List FileChange) : Bool :=
  changed_files.any (fun f => pyIn "test".data (pyLower f.path).data)

/-- Flag `has_docs`: some changed file with a documentation extension. -/
def has_docs (changed_files : List FileChange) : Bool :=
  changed_files.any (fun f =>
    pyEndsWith f.path ".md" || pyEndsWith f.path ".rst" || pyEndsWith f.path ".txt")

/-- Flag `has_config`: some changed file with a configuration extension. -/
def has_config (changed_files : List FileChange) : Bool :=
  changed_files.any (fun f =>
    pyEndsWith f.path ".json" || pyEndsWith f.path ".yml" ||
      pyEndsWith f.path ".yaml" || pyEndsWith f.path ".toml" ||
      pyEndsWith f.path ".ini")

/-- Contextual messages appended by the `if changed_files:` block of
`analyze_and_generate_messages`, before deduplication and generic padding.
The `emoji_map` dictionary of the gitmoji branch is assigned but never read in
the source and is omitted.  The non-ASCII characters below reproduce, code
point for code point, the (mojibake) characters literally present in the
source file. -/
def analyzeBase (diff : String) (changed_files : List FileChange) (style : String) :
    List String :=
  match changed_files with
  | [] => []
  | primary_file :: _ =>
    let file_name := pyStem primary_file.path
    let additions := pyCount "\n+".data diff.data
    let deletions := pyCount "\n-".data diff.data
    if style = "conventional" then
      (if is_bugfix diff then
        ["fix: resolve issue in " ++ file_name,
         "fix(" ++ file_name ++ "): correct error handling"]
      else if is_feature diff then
        ["feat: implement " ++ file_name ++ " functionality",
         "feat(" ++ file_name ++ "): add new capabilities"]
      else if is_refactor diff then
        ["refactor: improve " ++ file_name ++ " structure",
         "refactor(" ++ file_name ++ "): optimize code organization"]
      else if has_tests changed_files then
        ["test: add tests for " ++ file_name,
         "test(" ++ file_name ++ "): improve test coverage"]
      else if has_docs changed_files then
        ["docs: update " ++ file_name ++ " documentation",
         "docs(" ++ file_name ++ "): improve documentation"]
      else if has_config changed_files then
        ["chore: update " ++ file_name ++ " configuration",
         "config: modify " ++ file_name ++ " settings"]
      else if is_security diff then
        ["security: enhance " ++ file_name ++ " security",
         "fix(security): address vulnerabilities in " ++ file_name]
      else if is_performance diff then
        ["perf: optimize " ++ file_name ++ " performance",
         "perf(" ++ file_name ++ "): improve efficiency"]
      else if primary_file.status = "added" then
        ["feat: add " ++ file_name ++ " module"]
      else if primary_file.status = "deleted" then
        ["chore: remove " ++ file_name]
      else
        ["update: modify " ++ file_name])
      ++ (if changed_files.length > 1 then
            ["feat: update " ++ toString changed_files.length ++ " files with improvements"]
          else [])
    else if style = "gitmoji" then
      if is_bugfix diff then
        ["ðŸ› fix: resolve issue in " ++ file_name]
      else if is_feature diff then
        ["âœ¨ feat: add " ++ file_name ++ " functionality"]
      else if has_tests changed_files then
        ["âœ… test: add " ++ file_name ++ " tests"]
      else if has_docs changed_files then
        ["ðŸ“ docs: update " ++ file_name]
      else
        ["ðŸ”§ chore: update " ++ file_name]
    else
      (if is_bugfix diff then
        ["Fix issue in " ++ file_name]
      else if is_feature diff then
        ["Add " ++ file_name ++ " functionality"]
      else if is_refactor diff then
        ["Refactor " ++ file_name]
      else
        ["Update " ++ file_name])
      ++ (if additions > deletions then
            ["Add new code to " ++ file_name]
          else if deletions > additions then
            ["Clean up " ++ file_name]
          else [])

/-- The style-dependent list `generic` built inside the padding `while` loop. -/
def genericFor (style : String) : List String :=
  if style = "conventional" then
    ["chore: update project files",
     "feat: enhance functionality",
     "fix: resolve issues",
     "refactor: improve code quality"]
  else if style = "gitmoji" then
    ["ðŸ”§ chore: update project",
     "âœ¨ feat: add improvements",
     "ðŸ› fix: resolve issues"]
  else
    ["Update project files",
     "Make improvements",
     "Fix issues"]

/-- One pass of the inner `for msg in generic:` loop: append each generic
message not already present, stopping as soon as `num` messages are reached. -/
def addGenerics (num : Nat) : List String → List String → List String
  | [], messages => messages
  | g :: gs, messages =>
    if g ∈ messages then addGenerics num gs messages
    else
      let m2 := messages ++ [g]
      if num ≤ m2.length then m2 else addGenerics num gs m2

/-- The `while len(messages) < num:` padding loop, with explicit fuel
(one unit per iteration of the `while`); `none` means the loop has not
terminated within `fuel` iterations. -/
def padLoop (num : Nat) (style : String) : Nat → List String → Option (List String)
  | 0, messages => if num ≤ messages.length then some messages else none
  | fuel + 1, messages =>
    if num ≤ messages.length then some messages
    else padLoop num style fuel (addGenerics num (genericFor style) messages)

/-- `analyze_and_generate_messages(diff, changed_files, num, style)`:
contextual messages, deduplicated preserving order, padded by the generic
rotation, truncated to `num`.  The function reads no ambient state: the only
inputs are its four arguments. -/
def analyze_and_generate_messages (fuel : Nat) (diff : String)
    (changed_files : List FileChange) (num : Nat) (style : String) :
    Option (List String) :=
  (padLoop num style fuel (pyDedup (analyzeBase diff changed_files style))).map
    (List.take num)

/-! ## Response parser (`llm.py`, `parse_commit_messages`) -/

/-- Processing of one line of the raw response: strip, length filter,
removal of a leading `\d+[.)]\s*` marker then a leading `[-*]\s*` marker,
strip again, and the final length filter.  `none` means the line is dropped. -/
def cleanLine (line : List Char) : Option (List Char) :=
  let l := pyStrip line
  if 5 < l.length then
    let c1 :=
      let ds := l.takeWhile Char.isDigit
      if ds = [] then l
      else
        match l.drop ds.length with
        | c :: r => if c = '.' || c = ')' then r.dropWhile isPyWs else l
        | [] => l
    let c2 :=
      match c1 with
      | c :: r => if c = '-' || c = '*' then r.dropWhile isPyWs else c1
      | [] => c1
    let cleaned := pyStrip c2
    if 5 < cleaned.length then some cleaned else none
  else none

/-- The `for line in lines:` loop of `parse_commit_messages`: the count check
happens right after an append, so collection stops as soon as
`num_suggestions` survivors have been gathered. -/
def parseLoop (num : Nat) : List (List Char) → List String → List String
  | [], acc => acc
  | line :: rest, acc =>
    match cleanLine line with
    | none => parseLoop num rest acc
    | some m =>
      let acc2 := acc ++ [String.mk m]
      if num ≤ acc2.length then acc2 else parseLoop num rest acc2

/-- `parse_commit_messages(response, num_suggestions)`. -/
def parse_commit_messages (response : String) (num_suggestions : Nat) : List String :=
  parseLoop num_suggestions (splitNl (pyStrip response.data)) []

/-! ## Prompt builder (`prompts.py`) -/

def CONVENTIONAL_PROMPT : String :=
  "You are a Git commit message generator. Analyze the following git diff and generate {num} commit message suggestions.\n\nFollow Conventional Commits format: type(scope): description\n\nTypes:\n- feat: New feature\n- fix: Bug fix\n- docs: Documentation changes\n- style: Code style changes (formatting, semicolons, etc.)\n- refactor: Code refactoring\n- test: Adding or updating tests\n- chore: Maintenance tasks\n- perf: Performance improvements\n- ci: CI/CD changes\n- build: Build system changes\n\nRules:\n1. Subject line must be max 72 characters\n2. Use imperative mood (\"add\" not \"added\" or \"adds\")\n3. Be specific about what changed\n4. Focus on WHAT and WHY, not HOW\n5. Scope is optional but helpful (e.g., auth, api, ui)\n6. No period at the end of the subject line\n\nChanged files:\n{files}\n\nGit diff:\n```diff\n{diff}\n```\n\nGenerate exactly {num} commit messages, one per line, numbered 1-{num}. Only output the commit messages, nothing else:"

def GITMOJI_PROMPT : String :=
  "You are a Git commit message generator. Analyze the following git diff and generate {num} commit message suggestions using Gitmoji format.\n\nFormat: <emoji> <type>(<scope>): <description>\n\nCommon emojis:\n- âœ¨ :sparkles: New feature\n- ğŸ› :bug: Bug fix\n- ğŸ“ :memo: Documentation\n- ğŸ’„ :lipstick: UI/style updates\n- â™»ï¸ :recycle: Refactoring\n- âœ… :white_check_mark: Tests\n- ğŸ”§ :wrench: Configuration\n- âš¡ï¸ :zap: Performance\n- ğŸ”¥ :fire: Remove code/files\n- ğŸš€ :rocket: Deploy/release\n- ğŸ¨ :art: Improve structure\n- ğŸ”’ :lock: Security\n- â¬†ï¸ :arrow_up: Upgrade dependencies\n- â¬‡ï¸ :arrow_down: Downgrade dependencies\n- ğŸ—ï¸ :building_construction: Architectural changes\n\nRules:\n1. Start with appropriate emoji\n2. Use imperative mood\n3. Be concise and specific\n4. Max 72 characters total\n5. Include scope when relevant\n\nChanged files:\n{files}\n\nGit diff:\n```diff\n{diff}\n```\n\nGenerate exactly {num} commit messages, one per line, numbered 1-{num}. Only output the commit messages, nothing else:"

def SIMPLE_PROMPT : String :=
  "You are a Git commit message generator. Analyze the following git diff and generate {num} simple, clear commit message suggestions.\n\nRules:\n1. Use imperative mood (\"add\" not \"added\")\n2. Be specific and concise\n3. Max 72 characters\n4. Focus on the main change\n5. No unnecessary punctuation\n\nChanged files:\n{files}\n\nGit diff:\n```diff\n{diff}\n```\n\nGenerate exactly {num} commit messages, one per line, numbered 1-{num}. Only output the commit messages, nothing else:"

def BODY_PROMPT_ADDON : String :=
  "\n\nAlso generate a commit body that:\n1. Explains WHY the change was made\n2. Lists key modifications if multiple\n3. Notes any breaking changes\n4. Keeps lines under 72 characters\n5. Separates body from subject with blank line\n\nFormat each suggestion as:\n<number>. <subject line>\n\n<body>\n---"

/-- `get_prompt(style, include_body)`: template lookup with the conventional
template as the default for unknown styles. -/
def get_prompt (style : String) (include_body : Bool) : String :=
  let prompt :=
    if style = "conventional" then CONVENTIONAL_PROMPT
    else if style = "gitmoji" then GITMOJI_PROMPT
    else if style = "simple" then SIMPLE_PROMPT
    else CONVENTIONAL_PROMPT
  if include_body then prompt ++ BODY_PROMPT_ADDON else prompt

/-- Python's `template.format(num=..., files=..., diff=...)`: one left-to-right
pass over the template replacing each placeholder field; substituted values are
not re-scanned.  The three placeholders are the only brace fields occurring in
the templates above. -/
def pyFormat (numS filesS diffS : List Char) : List Char → List Char
  | [] => []
  | c :: rest =>
    if "{num}".data.isPrefixOf (c :: rest) then
      numS ++ pyFormat numS filesS diffS (rest.drop 4)
    else if "{files}".data.isPrefixOf (c :: rest) then
      filesS ++ pyFormat numS filesS diffS (rest.drop 6)
    else if "{diff}".data.isPrefixOf (c :: rest) then
      diffS ++ pyFormat numS filesS diffS (rest.drop 5)
    else
      c :: pyFormat numS filesS diffS rest
termination_by l => l.length
decreasing_by
  · simp only [List.length_drop, List.length_cons]; omega
  · simp only [List.length_drop, List.length_cons]; omega
  · simp only [List.length_drop, List.length_cons]; omega
  · simp

/-! ## Remote pipeline (`llm.py`, `generate_commit_messages`) -/

/-- The `files_str` built on a cache miss: the first 20 changed files rendered
as `- path (status)` lines. -/
def files_str (changed_files : List FileChange) : String :=
  String.intercalate "\n"
    ((changed_files.take 20).map (fun fc => "- " ++ fc.path ++ " (" ++ fc.status ++ ")"))

/-- The diff actually embedded into the prompt: truncated to its first 5000
characters plus a truncation marker whenever it is longer than 5000. -/
def promptDiff (diff : String) : String :=
  if 5000 < diff.data.length then
    String.mk (diff.data.take 5000) ++ "\n... (truncated)"
  else diff

/-- The full prompt sent to the remote endpoints on a cache miss. -/
def promptFor (style : String) (include_body : Bool) (num_suggestions : Nat)
    (changed_files : List FileChange) (diff : String) : String :=
  String.mk (pyFormat (toString num_suggestions).data (files_str changed_files).data
    (promptDiff diff).data (get_prompt style include_body).data)

/-- Environment of a single `generate_commit_messages` run: the value the cache
lookup produced, and the optional text each remote endpoint would answer for a
given prompt (`none` models both exceptions and exhausted retries, which
`call_llm7_api` / `call_apifreellm` turn into `None`). -/
structure RemoteEnv where
  cached : Option (List String)
  llm7 : String → Option String
  apifreellm : String → Option String

/-- Python truthiness of an `Optional[str]`. -/
def truthyStr : Option String → Bool
  | none => false
  | some s => s ≠ ""

/-- Python truthiness of an `Optional[list]`. -/
def truthyList : Option (List String) → Bool
  | none => false
  | some l => l ≠ []

/-- Wrapping of subject strings into `CommitMessage(subject=msg,
style=CommitStyle(style))`; an invalid style raises `ValueError`. -/
def wrapMessages (style : String) (msgs : List String) :
    Except String (List CommitMessage) :=
  if isValidStyle style then
    Except.ok (msgs.map (fun m => { subject := m, body := none, style := style }))
  else Except.error "ValueError"

/-- `generate_commit_messages(diff, changed_files, num_suggestions, style,
include_body)` under environment `env`.  Result `none` models the
nontermination of the local generator (for every fuel); `some (Except.error _)`
a raised exception; `some (Except.ok l)` a normal return of `l`.  The source
rebinds `diff` to `diff[:5000] + "\n... (truncated)"` before building the
prompt, so both the prompt (inside `promptFor`) and the two
`analyze_and_generate_messages` calls below see the rebound diff
`promptDiff diff`.  The final `save_to_cache` write is a side effect on the
cache store, modelled separately by `save_to_cache` below. -/
def generate_commit_messages (fuel : Nat) (env : RemoteEnv) (diff : String)
    (changed_files : List FileChange) (num_suggestions : Nat) (style : String)
    (include_body : Bool) : Option (Except String (List CommitMessage)) :=
  if truthyList env.cached then some (wrapMessages style (env.cached.getD []))
  else
    let prompt := promptFor style include_body num_suggestions changed_files diff
    let r1 := env.llm7 prompt
    let response := if truthyStr r1 then r1 else env.apifreellm prompt
    let parsed :=
      if truthyStr response then parse_commit_messages (response.getD "") num_suggestions
      else []
    let afterLocal : Option (List String) :=
      if parsed.length < num_suggestions then
        (analyze_and_generate_messages fuel (promptDiff diff) changed_files
            (num_suggestions - parsed.length) style).map (fun loc => parsed ++ loc)
      else some parsed
    afterLocal.bind (fun msgs =>
      (if msgs = [] then
          analyze_and_generate_messages fuel (promptDiff diff) changed_files
            num_suggestions style
        else some msgs).map
        (fun messages => wrapMessages style (messages.take num_suggestions)))

/-! ## Basic fallback generator (`llm.py`, `generate_fallback_messages`) -/

/-- The `messages` list built by `generate_fallback_messages` before its
padding loop (the only part of that function that depends on `num` is the
padding and the final `[:num]` cut). -/
def fallbackSubjects (changed_files : List FileChange) (style : String) :
    List String :=
  if changed_files = [] then ["update code"]
  else
      let added := changed_files.filter (fun f => f.status = "added")
      let modified := changed_files.filter (fun f => f.status = "modified")
      let deleted := changed_files.filter (fun f => f.status = "deleted")
      if changed_files.length = 1 then
        match changed_files with
        | [] => []
        | file :: _ =>
          let base_name := pyStem file.path
          if style = "conventional" then
            if file.status = "added" then ["feat: add " ++ base_name]
            else if file.status = "deleted" then ["chore: remove " ++ base_name]
            else ["fix: update " ++ base_name]
          else
            if file.status = "added" then ["add " ++ base_name]
            else if file.status = "deleted" then ["remove " ++ base_name]
            else ["update " ++ base_name]
      else
        (if added ≠ [] ∧ modified = [] ∧ deleted = [] then
          [if style = "conventional" then
            "feat: add " ++ toString added.length ++ " new files"
          else "add " ++ toString added.length ++ " new files"]
        else [])
        ++ (if modified ≠ [] ∧ added = [] ∧ deleted = [] then
          [if style = "conventional" then
            "fix: update " ++ toString modified.length ++ " files"
          else "update " ++ toString modified.length ++ " files"]
        else [])
        ++ [if style = "conventional" then
            "chore: update " ++ toString changed_files.length ++ " files"
          else "update " ++ toString changed_files.length ++ " files"]

/-- `generate_fallback_messages(changed_files, num, style)`: its padding
`while` loop appends the same filler string, so it always terminates with
`num - len(messages)` copies, and at most `num` messages are wrapped. -/
def generate_fallback_messages (changed_files : List FileChange) (num : Nat)
    (style : String) : Except String (List CommitMessage) :=
  let messages := fallbackSubjects changed_files style
  let filler := if style = "conventional" then "chore: update project files"
    else "update project files"
  let padded := messages ++ List.replicate (num - messages.length) filler
  wrapMessages style (padded.take num)

/-! ## Staged-diff truncation (`git_utils.py`, end of `get_staged_diff`) -/

def MAX_DIFF_SIZE : Nat := 10000

/-- `line.startswith("diff --git")`. -/
def isDiffHeader (l : List Char) : Bool := "diff --git".data.isPrefixOf l

/-- The truncation step at the end of `get_staged_diff`, applied to the raw
staged diff text obtained from git: a diff longer than `MAX_DIFF_SIZE` is cut
to its first `MAX_DIFF_SIZE` characters, those are split into lines, and the
backwards `for i in range(len(lines) - 1, -1, -1)` scan drops the last
`diff --git` header line and everything after it; the `else` clause of the
`for` keeps the hard character cut when no header is found. -/
def truncateStagedDiff (staged_diff : String) : String :=
  if MAX_DIFF_SIZE < staged_diff.data.length then
    let lines := splitNl (staged_diff.data.take MAX_DIFF_SIZE)
    match findLast? isDiffHeader lines with
    | some i => String.mk (joinNl (lines.take i))
    | none => String.mk (staged_diff.data.take MAX_DIFF_SIZE)
  else staged_diff

/-! ## Result cache (`llm.py`, `get_cached_result` / `save_to_cache`)

The cache directory is modelled as an association list from file key to entry;
an entry records the file's modification time and the decoded JSON body
`{"messages": [...]}` (Python's `json.dump`/`json.load` round-trips a list of
strings exactly, so the body is modelled by the message list it encodes).
Clock values are seconds as returned by `time.time()`. -/

def CACHE_TTL_SECONDS : Nat := 3600

structure CacheEntry where
  mtime : Nat
  messages : List String
deriving DecidableEq, Repr

/-- The on-disk cache directory: one file per key. -/
abbrev CacheState := List (String × CacheEntry)

/-- File lookup by name. -/
def lookupEntry : CacheState → String → Option CacheEntry
  | [], _ => none
  | (k, e) :: r, key => if k = key then some e else lookupEntry r key

/-- File deletion (`cache_file.unlink()`). -/
def eraseKey (key : String) : CacheState → CacheState
  | [] => []
  | (k, e) :: r => if k = key then eraseKey key r else (k, e) :: eraseKey key r

/-- `save_to_cache(cache_key, messages)` at time `now`: writes the file,
setting its modification time.  The source swallows write `IOError`s; the
model covers the successful write. -/
def save_to_cache (now : Nat) (cache_key : String) (messages : List String)
    (st : CacheState) : CacheState :=
  (cache_key, ⟨now, messages⟩) :: eraseKey cache_key st

/-- `get_cached_result(cache_key)` at time `now`: returns the decoded messages
of a fresh entry; an entry older than the TTL is deleted and a miss reported.
The pair is (returned value, cache directory after the call). -/
def get_cached_result (now : Nat) (cache_key : String) (st : CacheState) :
    Option (List String) × CacheState :=
  match lookupEntry st cache_key with
  | none => (none, st)
  | some e =>
    if CACHE_TTL_SECONDS < now - e.mtime then (none, eraseKey cache_key st)
    else (some e.messages, st)

/-! ## Supporting lemmas -/

theorem splitNl_ne_nil (cs : List Char) : splitNl cs ≠ [] := by
  cases cs with
  | nil => simp [splitNl]
  | cons c t =>
    simp only [splitNl]
    split
    · simp
    · split <;> simp

theorem joinNl_splitNl (cs : List Char) : joinNl (splitNl cs) = cs := by
  induction cs with
  | nil => rfl
  | cons c t ih =>
    simp only [splitNl]
    by_cases hc : c = '\n'
    · subst hc
      simp only [if_pos rfl]
      rcases ht : splitNl t with _ | ⟨h, r⟩
      · exact absurd ht (splitNl_ne_nil t)
      · rw [ht] at ih
        simpa [joinNl] using ih
    · rw [if_neg hc]
      rcases ht : splitNl t with _ | ⟨h, r⟩
      · exact absurd ht (splitNl_ne_nil t)
      · rw [ht] at ih
        cases r with
        | nil => simpa [joinNl] using ih
        | cons h2 r2 => simpa [joinNl] using ih

theorem joinNl_take_prefix (l : List (List Char)) (k : Nat) :
    joinNl (l.take k) <+: joinNl l := by
  induction l generalizing k with
  | nil => simp
  | cons x xs ih =>
    cases k with
    | zero => simp [joinNl]
    | succ k =>
      cases xs with
      | nil => simp [joinNl]
      | cons y ys =>
        show joinNl (x :: (y :: ys).take k) <+: x ++ '\n' :: joinNl (y :: ys)
        cases hk : (y :: ys).take k with
        | nil =>
          exact List.prefix_append x _
        | cons z zs =>
          show x ++ '\n' :: joinNl (z :: zs) <+: x ++ '\n' :: joinNl (y :: ys)
          rw [List.prefix_append_right_inj, List.cons_prefix_cons]
          refine ⟨rfl, ?_⟩
          rw [← hk]
          exact ih k

theorem findLast?_eq_none_of {p : α → Bool} :
    ∀ {l : List α}, (∀ x ∈ l, p x = false) → findLast? p l = none := by
  intro l
  induction l with
  | nil => intro _; rfl
  | cons x xs ih =>
    intro h
    have hx : p x = false := h x (by simp)
    have hxs : findLast? p xs = none := ih (fun y hy => h y (by simp [hy]))
    simp [findLast?, hxs, hx]

theorem findLast?_eq_some_of {p : α → Bool} :
    ∀ (l : List α) (i : Nat) (hi : i < l.length),
      p (l.get ⟨i, hi⟩) = true →
      (∀ k (hk : k < l.length), i < k → p (l.get ⟨k, hk⟩) = false) →
      findLast? p l = some i := by
  intro l
  induction l with
  | nil => intro i hi; simp at hi
  | cons x xs ih =>
    intro i hi hp hlast
    match i with
    | 0 =>
      have hnone : findLast? p xs = none := by
        apply findLast?_eq_none_of
        intro y hy
        obtain ⟨⟨k, hk⟩, rfl⟩ := List.mem_iff_get.mp hy
        have := hlast (k + 1) (by simpa using Nat.succ_lt_succ hk) (Nat.succ_pos _)
        simpa using this
      have hx : p x = true := by simpa using hp
      simp [findLast?, hnone, hx]
    | i' + 1 =>
      have hi' : i' < xs.length := by simpa using hi
      have hp' : p (xs.get ⟨i', hi'⟩) = true := by simpa using hp
      have hlast' : ∀ k (hk : k < xs.length), i' < k → p (xs.get ⟨k, hk⟩) = false := by
        intro k hk hik
        have := hlast (k + 1) (by simpa using Nat.succ_lt_succ hk) (Nat.succ_lt_succ hik)
        simpa using this
      simp [findLast?, ih i' hi' hp' hlast']

theorem truncateStagedDiff_eq (s : String) (h : MAX_DIFF_SIZE < s.data.length) :
    truncateStagedDiff s =
      match findLast? isDiffHeader (splitNl (s.data.take MAX_DIFF_SIZE)) with
      | some i => String.mk (joinNl ((splitNl (s.data.take MAX_DIFF_SIZE)).take i))
      | none => String.mk (s.data.take MAX_DIFF_SIZE) := by
  rw [truncateStagedDiff, if_pos h]

theorem splitNl_replicate_a (n : Nat) :
    splitNl (List.replicate n 'a') = [List.replicate n 'a'] := by
  induction n with
  | zero => rfl
  | succ n ih =>
    have hne : ¬('a' = '\n') := by decide
    rw [List.replicate_succ]
    rw [show splitNl ('a' :: List.replicate n 'a')
        = match splitNl (List.replicate n 'a') with
          | h :: r => ('a' :: h) :: r
          | [] => [['a']] from by
      conv_lhs => rw [splitNl.eq_def]
      exact if_neg hne]
    rw [ih]

/-! ## Claims -/

/-- C3: for a staged diff longer than 10000 characters, the truncation step of
`get_staged_diff` returns at most 10000 characters; when the prefix of the
first 10000 characters contains a line starting with `diff --git`, the result
is exactly the lines strictly before the last such line, rejoined (that header
line and everything after it are dropped); when no such line exists in the
prefix, the result is the hard cut at exactly 10000 characters. -/
theorem staged_diff_truncation_sound (s : String)
    (hlen : MAX_DIFF_SIZE < s.data.length)
    (pre : List Char) (lines : List (List Char))
    (hpre : pre = s.data.take MAX_DIFF_SIZE) (hlines : lines = splitNl pre) :
    (truncateStagedDiff s).data.length ≤ MAX_DIFF_SIZE ∧
    (∀ (i : Nat) (hi : i < lines.length),
      isDiffHeader (lines.get ⟨i, hi⟩) = true →
      (∀ (k : Nat) (hk : k < lines.length), i < k →
        isDiffHeader (lines.get ⟨k, hk⟩) = false) →
      (truncateStagedDiff s).data = joinNl (lines.take i)) ∧
    ((∀ l ∈ lines, isDiffHeader l = false) →
      (truncateStagedDiff s).data = pre ∧ pre.length = MAX_DIFF_SIZE) := by
  subst hpre hlines
  have hpre_len : (s.data.take MAX_DIFF_SIZE).length = MAX_DIFF_SIZE := by
    rw [List.length_take]
    omega
  refine ⟨?_, ?_, ?_⟩
  · rw [truncateStagedDiff_eq s hlen]
    cases hf : findLast? isDiffHeader (splitNl (s.data.take MAX_DIFF_SIZE)) with
    | none =>
      exact hpre_len.le
    | some i =>
      have hprefix := joinNl_take_prefix (splitNl (s.data.take MAX_DIFF_SIZE)) i
      rw [joinNl_splitNl] at hprefix
      calc (joinNl ((splitNl (s.data.take MAX_DIFF_SIZE)).take i)).length
          ≤ (s.data.take MAX_DIFF_SIZE).length := hprefix.length_le
        _ = MAX_DIFF_SIZE := hpre_len
  · intro i hi hp hlast
    have hf := findLast?_eq_some_of (splitNl (s.data.take MAX_DIFF_SIZE)) i hi hp hlast
    rw [truncateStagedDiff_eq s hlen, hf]
  · intro hnone
    have hf := findLast?_eq_none_of hnone
    rw [truncateStagedDiff_eq s hlen, hf]
    exact ⟨rfl, hpre_len⟩

/-- C3 witness: a 10001-character diff with no `diff --git` header is hard-cut
to exactly its first 10000 characters. -/
theorem staged_diff_truncation_sound_witness :
    (truncateStagedDiff (String.mk (List.replicate 10001 'a'))).data =
      (String.mk (List.replicate 10001 'a')).data.take MAX_DIFF_SIZE ∧
    ((String.mk (List.replicate 10001 'a')).data.take MAX_DIFF_SIZE).length =
      MAX_DIFF_SIZE :=
  (staged_diff_truncation_sound (String.mk (List.replicate 10001 'a'))
    (by
      rw [show (String.mk (List.replicate 10001 'a')).data = List.replicate 10001 'a'
        from rfl, List.length_replicate]
      decide)
    ((String.mk (List.replicate 10001 'a')).data.take MAX_DIFF_SIZE)
    (splitNl ((String.mk (List.replicate 10001 'a')).data.take MAX_DIFF_SIZE))
    rfl rfl).2.2
    (by
      intro l hl
      have hsplit : splitNl ((String.mk (List.replicate 10001 'a')).data.take
          MAX_DIFF_SIZE) = [List.replicate (min MAX_DIFF_SIZE 10001) 'a'] := by
        rw [show (String.mk (List.replicate 10001 'a')).data = List.replicate 10001 'a'
          from rfl, List.take_replicate, splitNl_replicate_a]
      rw [hsplit] at hl
      simp only [List.mem_singleton] at hl
      subst hl
      rw [show min MAX_DIFF_SIZE 10001 = 10000 from by decide]
      simp only [isDiffHeader]
      rw [List.replicate_succ]
      decide)

theorem lookupEntry_eraseKey (key : String) :
    ∀ st : CacheState, lookupEntry (eraseKey key st) key = none := by
  intro st
  induction st with
  | nil => rfl
  | cons kv r ih =>
    obtain ⟨k, e⟩ := kv
    simp only [eraseKey]
    by_cases hk : k = key
    · rw [if_pos hk]
      exact ih
    · rw [if_neg hk]
      simp only [lookupEntry, if_neg hk]
      exact ih

/-- C4: writing a message list under a key and reading it back within the
one-hour TTL returns exactly that list (leaving the cache unchanged); reading
it after the TTL has elapsed returns nothing and deletes the file for that
key. -/
theorem cache_roundtrip_ttl (cache_key : String) (messages : List String)
    (st : CacheState) (t0 t1 : Nat) :
    (t1 - t0 ≤ CACHE_TTL_SECONDS →
      get_cached_result t1 cache_key (save_to_cache t0 cache_key messages st) =
        (some messages, save_to_cache t0 cache_key messages st)) ∧
    (CACHE_TTL_SECONDS < t1 - t0 →
      (get_cached_result t1 cache_key (save_to_cache t0 cache_key messages st)).1 =
        none ∧
      lookupEntry
        (get_cached_result t1 cache_key (save_to_cache t0 cache_key messages st)).2
        cache_key = none) := by
  have hlook : lookupEntry (save_to_cache t0 cache_key messages st) cache_key =
      some ⟨t0, messages⟩ := by
    simp [save_to_cache, lookupEntry]
  constructor
  · intro hfresh
    simp only [get_cached_result, hlook]
    rw [if_neg (by omega)]
  · intro hstale
    simp only [get_cached_result, hlook]
    rw [if_pos (by omega)]
    exact ⟨rfl, lookupEntry_eraseKey cache_key _⟩

/-- C4 witness: a list saved at time 0 is read back whole at time 3600 and is
gone (value and file) at time 7201. -/
theorem cache_roundtrip_ttl_witness :
    get_cached_result 3600 "k" (save_to_cache 0 "k" ["fix: a"] []) =
      (some ["fix: a"], save_to_cache 0 "k" ["fix: a"] []) ∧
    (get_cached_result 7201 "k" (save_to_cache 0 "k" ["fix: a"] [])).1 = none ∧
    lookupEntry (get_cached_result 7201 "k" (save_to_cache 0 "k" ["fix: a"] [])).2
      "k" = none :=
  ⟨(cache_roundtrip_ttl "k" ["fix: a"] [] 0 3600).1 (by decide),
   (cache_roundtrip_ttl "k" ["fix: a"] [] 0 7201).2 (by decide)⟩

/-! ### Behaviour of the generic-padding loop -/

theorem addGenerics_mem {m : String} :
    ∀ (gs msgs : List String) (num : Nat),
      m ∈ addGenerics num gs msgs → m ∈ msgs ∨ m ∈ gs := by
  intro gs
  induction gs with
  | nil =>
    intro msgs num hm
    exact Or.inl hm
  | cons g gs ih =>
    intro msgs num hm
    simp only [addGenerics] at hm
    by_cases hg : g ∈ msgs
    · rw [if_pos hg] at hm
      rcases ih msgs num hm with h | h
      · exact Or.inl h
      · exact Or.inr (List.mem_cons_of_mem g h)
    · rw [if_neg hg] at hm
      by_cases hlen : num ≤ (msgs ++ [g]).length
      · rw [if_pos hlen] at hm
        rcases List.mem_append.mp hm with h | h
        · exact Or.inl h
        · simp only [List.mem_singleton] at h
          exact Or.inr (h ▸ List.mem_cons_self g gs)
      · rw [if_neg hlen] at hm
        rcases ih (msgs ++ [g]) num hm with h | h
        · rcases List.mem_append.mp h with h1 | h1
          · exact Or.inl h1
          · simp only [List.mem_singleton] at h1
            exact Or.inr (h1 ▸ List.mem_cons_self g gs)
        · exact Or.inr (List.mem_cons_of_mem g h)

theorem padLoop_some_mem {m : String} :
    ∀ (fuel num : Nat) (style : String) (msgs r : List String),
      padLoop num style fuel msgs = some r →
      m ∈ r → m ∈ msgs ∨ m ∈ genericFor style := by
  intro fuel
  induction fuel with
  | zero =>
    intro num style msgs r h hm
    simp only [padLoop] at h
    by_cases hd : num ≤ msgs.length
    · rw [if_pos hd] at h
      cases h
      exact Or.inl hm
    · rw [if_neg hd] at h
      exact absurd h (by simp)
  | succ fuel ih =>
    intro num style msgs r h hm
    simp only [padLoop] at h
    by_cases hd : num ≤ msgs.length
    · rw [if_pos hd] at h
      cases h
      exact Or.inl hm
    · rw [if_neg hd] at h
      rcases ih num style _ r h hm with h1 | h1
      · rcases addGenerics_mem (genericFor style) msgs num h1 with h2 | h2
        · exact Or.inl h2
        · exact Or.inr h2
      · exact Or.inr h1

theorem padLoop_some_length :
    ∀ (fuel num : Nat) (style : String) (msgs r : List String),
      padLoop num style fuel msgs = some r → num ≤ r.length := by
  intro fuel
  induction fuel with
  | zero =>
    intro num style msgs r h
    simp only [padLoop] at h
    by_cases hd : num ≤ msgs.length
    · rw [if_pos hd] at h
      cases h
      exact hd
    · rw [if_neg hd] at h
      exact absurd h (by simp)
  | succ fuel ih =>
    intro num style msgs r h
    simp only [padLoop] at h
    by_cases hd : num ≤ msgs.length
    · rw [if_pos hd] at h
      cases h
      exact hd
    · rw [if_neg hd] at h
      exact ih num style _ r h

theorem padLoop_stuck :
    ∀ (fuel num : Nat) (style : String) (msgs : List String),
      addGenerics num (genericFor style) msgs = msgs → msgs.length < num →
      padLoop num style fuel msgs = none := by
  intro fuel
  induction fuel with
  | zero =>
    intro num style msgs _ hlt
    simp only [padLoop]
    rw [if_neg (Nat.not_le.mpr hlt)]
  | succ fuel ih =>
    intro num style msgs hfix hlt
    simp only [padLoop]
    rw [if_neg (Nat.not_le.mpr hlt), hfix]
    exact ih num style msgs hfix hlt

theorem analyze_some_length :
    ∀ (fuel : Nat) (diff : String) (changed_files : List FileChange) (num : Nat)
      (style : String) (ms : List String),
      analyze_and_generate_messages fuel diff changed_files num style = some ms →
      ms.length = num := by
  intro fuel diff files num style ms h
  simp only [analyze_and_generate_messages] at h
  cases hp : padLoop num style fuel (pyDedup (analyzeBase diff files style)) with
  | none =>
    rw [hp] at h
    exact absurd h (by simp)
  | some r =>
    rw [hp] at h
    simp only [Option.map_some', Option.some.injEq] at h
    subst h
    rw [List.length_take]
    exact Nat.min_eq_left (padLoop_some_length fuel num style _ r hp)

/-- C1 (code bug): under the 1..10 request range the count invariant fails:
with an empty changed-file list, the conventional style and a requested count
of 5, the padding loop of `analyze_and_generate_messages` can only ever supply
its 4 distinct generic messages, makes no further progress, and never
terminates — `generate_commit_messages` diverges instead of returning 5
messages, for every fuel bound. -/
theorem generate_count_invariant_diverges :
    ∀ fuel : Nat,
      generate_commit_messages fuel ⟨none, fun _ => none, fun _ => none⟩ "" [] 5
        "conventional" false = none := by
  have hstuck : ∀ f, padLoop 5 "conventional" f [] = none := by
    intro f
    cases f with
    | zero => rfl
    | succ f =>
      show padLoop 5 "conventional" (f + 1) [] = none
      simp only [padLoop]
      rw [if_neg (by decide)]
      rw [show addGenerics 5 (genericFor "conventional") [] =
          ["chore: update project files", "feat: enhance functionality",
           "fix: resolve issues", "refactor: improve code quality"] from by decide]
      exact padLoop_stuck f 5 "conventional" _ (by decide) (by decide)
  have hanalyze : ∀ f,
      analyze_and_generate_messages f (promptDiff "") [] 5 "conventional" =
      none := by
    intro f
    simp only [analyze_and_generate_messages]
    rw [show pyDedup (analyzeBase (promptDiff "") [] "conventional") = [] from rfl,
      hstuck f]
    rfl
  intro fuel
  simp only [generate_commit_messages, truthyList, truthyStr, Bool.false_eq_true,
    if_false, List.length_nil, Nat.sub_zero]
  rw [if_pos (by decide : (0 : Nat) < 5), hanalyze fuel]
  rfl

/-- C10: with an empty changed-file list the contextual block of
`analyze_and_generate_messages` contributes nothing, so every message it
returns comes from the fixed generic filler rotation of the requested style;
for the conventional style that rotation is exactly the four listed fillers. -/
theorem empty_files_only_generic :
    ∀ (fuel : Nat) (diff : String) (num : Nat) (style : String),
      (∀ ms, analyze_and_generate_messages fuel diff [] num style = some ms →
        ∀ m ∈ ms, m ∈ genericFor style) ∧
      genericFor "conventional" =
        ["chore: update project files", "feat: enhance functionality",
         "fix: resolve issues", "refactor: improve code quality"] := by
  intro fuel diff num style
  refine ⟨?_, rfl⟩
  intro ms hms m hm
  simp only [analyze_and_generate_messages] at hms
  rw [show pyDedup (analyzeBase diff [] style) = [] from rfl] at hms
  cases hp : padLoop num style fuel [] with
  | none =>
    rw [hp] at hms
    exact absurd hms (by simp)
  | some r =>
    rw [hp] at hms
    simp only [Option.map_some', Option.some.injEq] at hms
    subst hms
    have hmr : m ∈ r := List.take_subset num r hm
    rcases padLoop_some_mem fuel num style [] r hp hmr with h | h
    · exact absurd h (by simp)
    · exact h

/-- C10 witness: with no changed files, fuel 1 and count 3, the conventional
result consists of generic fillers only. -/
theorem empty_files_only_generic_witness :
    "fix: resolve issues" ∈ genericFor "conventional" :=
  (empty_files_only_generic 1 "x" 3 "conventional").1
    ["chore: update project files", "feat: enhance functionality",
     "fix: resolve issues"]
    (by decide) "fix: resolve issues" (by decide)

/-- C7: when the cache misses and both remote calls yield no response,
`generate_commit_messages` raises nothing: whenever the local heuristic
generator terminates, the pipeline returns normally and its output is exactly
the local generator's messages — the missing remote response is never surfaced
as an error.  The local generator receives the rebound diff `promptDiff diff`
(the source truncates `diff` in place before the fallback stages). -/
theorem remote_failure_falls_back_locally :
    ∀ (fuel num : Nat) (env : RemoteEnv) (diff : String)
      (changed_files : List FileChange) (style : String) (include_body : Bool),
      1 ≤ num → isValidStyle style = true →
      env.cached = none →
      (∀ p, env.llm7 p = none) → (∀ p, env.apifreellm p = none) →
      generate_commit_messages fuel env diff changed_files num style include_body =
        (analyze_and_generate_messages fuel (promptDiff diff) changed_files num
            style).map
          (fun ms => Except.ok ((ms.take num).map
            (fun m => { subject := m, body := none, style := style }))) := by
  intro fuel num env diff files style body hnum hstyle hcache h7 ha
  simp only [generate_commit_messages, hcache, h7, ha, truthyList, truthyStr,
    Bool.false_eq_true, if_false, List.length_nil, Nat.sub_zero, List.nil_append]
  rw [if_pos (Nat.lt_of_lt_of_le Nat.zero_lt_one hnum)]
  cases hA : analyze_and_generate_messages fuel (promptDiff diff) files num style with
  | none => rfl
  | some ms =>
    simp only [Option.map_some', Option.some_bind, ite_self, wrapMessages, hstyle,
      if_true]

/-- C7 witness: one added file, empty diff (its truncation rebinding is the
identity), both remotes silent, count 3. -/
theorem remote_failure_falls_back_locally_witness :
    generate_commit_messages 5 ⟨none, fun _ => none, fun _ => none⟩ ""
        [{ path := "auth/login.py", status := "added" }] 3 "conventional" false =
      (analyze_and_generate_messages 5 (promptDiff "")
          [{ path := "auth/login.py", status := "added" }] 3 "conventional").map
        (fun ms => Except.ok ((ms.take 3).map
          (fun m => { subject := m, body := none, style := "conventional" }))) :=
  remote_failure_falls_back_locally 5 3 ⟨none, fun _ => none, fun _ => none⟩ ""
    [{ path := "auth/login.py", status := "added" }] "conventional" false
    (by decide) (by decide) rfl (fun _ => rfl) (fun _ => rfl)

/-- C8: `analyze_and_generate_messages` is deterministic — its embedding is a
pure function of (diff, changed_files, num, style) alone (the source reads no
randomness and no ambient state), so two calls on identical arguments return
identical message lists. -/
theorem analyze_deterministic :
    ∀ (fuel : Nat) (d1 d2 : String) (f1 f2 : List FileChange) (n1 n2 : Nat)
      (s1 s2 : String), d1 = d2 → f1 = f2 → n1 = n2 → s1 = s2 →
      analyze_and_generate_messages fuel d1 f1 n1 s1 =
        analyze_and_generate_messages fuel d2 f2 n2 s2 := by
  intro fuel d1 d2 f1 f2 n1 n2 s1 s2 h1 h2 h3 h4
  subst h1
  subst h2
  subst h3
  subst h4
  rfl

/-- C8 witness: two identical calls agree on a concrete input. -/
theorem analyze_deterministic_witness :
    analyze_and_generate_messages 3 "diff" [] 2 "simple" =
      analyze_and_generate_messages 3 "diff" [] 2 "simple" :=
  analyze_deterministic 3 "diff" "diff" [] [] 2 2 "simple" "simple" rfl rfl rfl rfl

/-- C5: in the conventional branch of `analyze_and_generate_messages` with a
non-empty changed-file list, the contextual messages come from the first
matching category in the fixed `if/elif` priority order bugfix > feature >
refactor > tests > docs > config > security > performance > default; in
particular, whenever the bug-fix flag holds the bug-fix messages are emitted
regardless of every other flag. -/
theorem category_priority_order :
    ∀ (diff : String) (f0 : FileChange) (rest : List FileChange),
    (is_bugfix diff = true →
      analyzeBase diff (f0 :: rest) "conventional" =
        ["fix: resolve issue in " ++ pyStem f0.path,
         "fix(" ++ pyStem f0.path ++ "): correct error handling"] ++
        (if (f0 :: rest).length > 1 then
          ["feat: update " ++ toString (f0 :: rest).length ++ " files with improvements"]
        else [])) ∧
    (is_bugfix diff = false → is_feature diff = true →
      analyzeBase diff (f0 :: rest) "conventional" =
        ["feat: implement " ++ pyStem f0.path ++ " functionality",
         "feat(" ++ pyStem f0.path ++ "): add new capabilities"] ++
        (if (f0 :: rest).length > 1 then
          ["feat: update " ++ toString (f0 :: rest).length ++ " files with improvements"]
        else [])) ∧
    (is_bugfix diff = false → is_feature diff = false → is_refactor diff = true →
      analyzeBase diff (f0 :: rest) "conventional" =
        ["refactor: improve " ++ pyStem f0.path ++ " structure",
         "refactor(" ++ pyStem f0.path ++ "): optimize code organization"] ++
        (if (f0 :: rest).length > 1 then
          ["feat: update " ++ toString (f0 :: rest).length ++ " files with improvements"]
        else [])) ∧
    (is_bugfix diff = false → is_feature diff = false → is_refactor diff = false →
      has_tests (f0 :: rest) = true →
      analyzeBase diff (f0 :: rest) "conventional" =
        ["test: add tests for " ++ pyStem f0.path,
         "test(" ++ pyStem f0.path ++ "): improve test coverage"] ++
        (if (f0 :: rest).length > 1 then
          ["feat: update " ++ toString (f0 :: rest).length ++ " files with improvements"]
        else [])) ∧
    (is_bugfix diff = false → is_feature diff = false → is_refactor diff = false →
      has_tests (f0 :: rest) = false → has_docs (f0 :: rest) = true →
      analyzeBase diff (f0 :: rest) "conventional" =
        ["docs: update " ++ pyStem f0.path ++ " documentation",
         "docs(" ++ pyStem f0.path ++ "): improve documentation"] ++
        (if (f0 :: rest).length > 1 then
          ["feat: update " ++ toString (f0 :: rest).length ++ " files with improvements"]
        else [])) ∧
    (is_bugfix diff = false → is_feature diff = false → is_refactor diff = false →
      has_tests (f0 :: rest) = false → has_docs (f0 :: rest) = false →
      has_config (f0 :: rest) = true →
      analyzeBase diff (f0 :: rest) "conventional" =
        ["chore: update " ++ pyStem f0.path ++ " configuration",
         "config: modify " ++ pyStem f0.path ++ " settings"] ++
        (if (f0 :: rest).length > 1 then
          ["feat: update " ++ toString (f0 :: rest).length ++ " files with improvements"]
        else [])) ∧
    (is_bugfix diff = false → is_feature diff = false → is_refactor diff = false →
      has_tests (f0 :: rest) = false → has_docs (f0 :: rest) = false →
      has_config (f0 :: rest) = false → is_security diff = true →
      analyzeBase diff (f0 :: rest) "conventional" =
        ["security: enhance " ++ pyStem f0.path ++ " security",
         "fix(security): address vulnerabilities in " ++ pyStem f0.path] ++
        (if (f0 :: rest).length > 1 then
          ["feat: update " ++ toString (f0 :: rest).length ++ " files with improvements"]
        else [])) ∧
    (is_bugfix diff = false → is_feature diff = false → is_refactor diff = false →
      has_tests (f0 :: rest) = false → has_docs (f0 :: rest) = false →
      has_config (f0 :: rest) = false → is_security diff = false →
      is_performance diff = true →
      analyzeBase diff (f0 :: rest) "conventional" =
        ["perf: optimize " ++ pyStem f0.path ++ " performance",
         "perf(" ++ pyStem f0.path ++ "): improve efficiency"] ++
        (if (f0 :: rest).length > 1 then
          ["feat: update " ++ toString (f0 :: rest).length ++ " files with improvements"]
        else [])) ∧
    (is_bugfix diff = false → is_feature diff = false → is_refactor diff = false →
      has_tests (f0 :: rest) = false → has_docs (f0 :: rest) = false →
      has_config (f0 :: rest) = false → is_security diff = false →
      is_performance diff = false →
      analyzeBase diff (f0 :: rest) "conventional" =
        (if f0.status = "added" then ["feat: add " ++ pyStem f0.path ++ " module"]
         else if f0.status = "deleted" then ["chore: remove " ++ pyStem f0.path]
         else ["update: modify " ++ pyStem f0.path]) ++
        (if (f0 :: rest).length > 1 then
          ["feat: update " ++ toString (f0 :: rest).length ++ " files with improvements"]
        else [])) := by
  intro diff f0 rest
  refine ⟨?_, ?_, ?_, ?_, ?_, ?_, ?_, ?_, ?_⟩ <;>
    (intros; simp only [analyzeBase]; simp [*])

/-- C5 witness: a diff for which both the bug-fix and the feature flags hold
produces the bug-fix messages. -/
theorem category_priority_order_witness :
    is_feature "fix def " = true ∧
    analyzeBase "fix def " [{ path := "a.py", status := "modified" }]
        "conventional" =
      ["fix: resolve issue in a", "fix(a): correct error handling"] :=
  ⟨by decide,
    by
      have h := (category_priority_order "fix def "
        { path := "a.py", status := "modified" } []).1 (by decide)
      have h2 : analyzeBase "fix def " [{ path := "a.py", status := "modified" }]
          "conventional" =
          ["fix: resolve issue in " ++ pyStem "a.py",
           "fix(" ++ pyStem "a.py" ++ "): correct error handling"] := by
        simpa using h
      exact h2.trans (by decide)⟩

/-- C6: the parser maps the four-line numbered response to exactly the three
listed messages when three are requested (with the requested count four, the
fourth line would also be kept, showing collection stopped at the count). -/
theorem parse_example_exact :
    parse_commit_messages
        "1. fix: update authentication logic\n2. chore: refactor auth module\n3. feat: add token validation\n4. Some extra text"
        3 =
      ["fix: update authentication logic", "chore: refactor auth module",
       "feat: add token validation"] ∧
    parse_commit_messages
        "1. fix: update authentication logic\n2. chore: refactor auth module\n3. feat: add token validation\n4. Some extra text"
        4 =
      ["fix: update authentication logic", "chore: refactor auth module",
       "feat: add token validation", "Some extra text"] :=
  ⟨by decide, by decide⟩

/-- C2: for a single staged added file `auth/login.py` with the conventional
style and no remote response, the fallback generator's output contains a
subject with the substring `feat: add login` (it is literally
`"feat: add login"`), and the full pipeline on the same file likewise returns
a subject containing `feat: add login` (there: `"feat: add login module"`). -/
theorem fallback_feat_add_login :
    ∀ num : Nat, 1 ≤ num →
      (∃ l, generate_fallback_messages
          [{ path := "auth/login.py", status := "added" }] num "conventional" =
          Except.ok l ∧
        ∃ msg ∈ l, pyIn "feat: add login".data msg.subject.data = true) ∧
      (match generate_commit_messages 5 ⟨none, fun _ => none, fun _ => none⟩ ""
          [{ path := "auth/login.py", status := "added" }] 3 "conventional" false with
        | some (Except.ok l) =>
          l.any (fun m => pyIn "feat: add login".data m.subject.data)
        | _ => false) = true := by
  intro num hnum
  constructor
  · obtain ⟨k, rfl⟩ : ∃ k, num = k + 1 := ⟨num - 1, by omega⟩
    have hsubj : fallbackSubjects
        [{ path := "auth/login.py", status := "added" }] "conventional" =
        ["feat: add login"] := by decide
    have hdef : generate_fallback_messages
        [{ path := "auth/login.py", status := "added" }] (k + 1) "conventional" =
        Except.ok (((["feat: add login"] ++
            List.replicate (k + 1 - 1) "chore: update project files").take (k + 1)).map
          (fun m => { subject := m, body := none, style := "conventional" })) := by
      simp only [generate_fallback_messages, hsubj, wrapMessages]
      rw [if_pos (by decide : isValidStyle "conventional" = true)]
      simp
    refine ⟨_, hdef, ?_⟩
    refine ⟨{ subject := "feat: add login", body := none,
              style := "conventional" }, ?_, by decide⟩
    rw [Nat.add_sub_cancel]
    rw [show (["feat: add login"] ++
        List.replicate k "chore: update project files") =
        "feat: add login" :: List.replicate k "chore: update project files" from rfl]
    rw [List.take_succ_cons]
    exact List.mem_map_of_mem _ (List.mem_cons_self _ _)
  · decide

/-- C2 witness: the pipeline conjunct at the concrete request, via the theorem
at count 3. -/
theorem fallback_feat_add_login_witness :
    (match generate_commit_messages 5 ⟨none, fun _ => none, fun _ => none⟩ ""
        [{ path := "auth/login.py", status := "added" }] 3 "conventional" false with
      | some (Except.ok l) =>
        l.any (fun m => pyIn "feat: add login".data m.subject.data)
      | _ => false) = true :=
  (fallback_feat_add_login 3 (by decide)).2

/-- C9: the prompt built on a cache miss bounds its inputs on its own: only
the first 20 changed files can influence it, and the embedded diff is the
first 5000 characters of the diff followed by the `... (truncated)` marker
(16 characters) whenever the diff exceeds 5000 characters — so two diffs
agreeing on their first 5000 characters and both exceeding the bound yield
the same prompt. -/
theorem prompt_bounds_inputs :
    ∀ (style : String) (include_body : Bool) (num : Nat)
      (changed_files : List FileChange) (diff : String),
      promptFor style include_body num changed_files diff =
        promptFor style include_body num (changed_files.take 20) diff ∧
      (5000 < diff.data.length →
        (promptDiff diff).data =
          diff.data.take 5000 ++ "\n... (truncated)".data ∧
        (promptDiff diff).data.length = 5016) ∧
      (∀ diff2 : String, diff.data.take 5000 = diff2.data.take 5000 →
        5000 < diff.data.length → 5000 < diff2.data.length →
        promptFor style include_body num changed_files diff =
          promptFor style include_body num changed_files diff2) := by
  intro style body num files diff
  refine ⟨?_, ?_, ?_⟩
  · simp only [promptFor, files_str, List.take_take, Nat.min_self]
  · intro h
    constructor
    · simp only [promptDiff, if_pos h]
      rfl
    · simp only [promptDiff, if_pos h]
      rw [show (String.mk (diff.data.take 5000) ++ "\n... (truncated)").data =
          diff.data.take 5000 ++ "\n... (truncated)".data from rfl]
      rw [List.length_append, List.length_take, Nat.min_eq_left (le_of_lt h)]
      rfl
  · intro diff2 htake h1 h2
    simp only [promptFor, promptDiff, if_pos h1, if_pos h2, htake]

/-- C9 witness: two diffs of 5001 and 5002 copies of `a` agree on the prompt,
and the embedded diff of the first has exactly 5016 characters. -/
theorem prompt_bounds_inputs_witness :
    promptFor "conventional" false 3 [] (String.mk (List.replicate 5001 'a')) =
      promptFor "conventional" false 3 [] (String.mk (List.replicate 5002 'a')) ∧
    (promptDiff (String.mk (List.replicate 5001 'a'))).data.length = 5016 :=
  ⟨(prompt_bounds_inputs "conventional" false 3 []
      (String.mk (List.replicate 5001 'a'))).2.2
      (String.mk (List.replicate 5002 'a'))
      (by
        rw [show (String.mk (List.replicate 5001 'a')).data =
            List.replicate 5001 'a' from rfl]
        rw [show (String.mk (List.replicate 5002 'a')).data =
            List.replicate 5002 'a' from rfl]
        rw [List.take_replicate, List.take_replicate]
        norm_num)
      (by
        rw [show (String.mk (List.replicate 5001 'a')).data =
            List.replicate 5001 'a' from rfl, List.length_replicate]
        norm_num)
      (by
        rw [show (String.mk (List.replicate 5002 'a')).data =
            List.replicate 5002 'a' from rfl, List.length_replicate]
        norm_num),
   ((prompt_bounds_inputs "conventional" false 3 []
      (String.mk (List.replicate 5001 'a'))).2.1
      (by
        rw [show (String.mk (List.replicate 5001 'a')).data =
            List.replicate 5001 'a' from rfl, List.length_replicate]
        norm_num)).2⟩

end GitCommitAI
